import Mathlib

/-!
Verification of the annotation-synchronization core of the geti-sdk
repository: a shallow embedding of
`geti_sdk/rest_clients/annotation_clients/base_annotation_client.py` and
`sc_api_tools/rest_managers/media_managers/image_manager.py`, with theorems
about label-mapping resolution, paginated media enumeration, scene
fetch/upload/append, the bulk download pipeline and image upload.

External collaborators (HTTP transport, REST converters, the annotation
reader, the filesystem) are modelled as explicit inputs/outputs: the
transport is a value describing the server's response, file writes are
returned as a list of records, and the converters are pure functions on a
transport-dictionary type that carries a tag recording which serialization
format produced it.
-/

/-- An annotation (shape + label) is opaque to the client code under study:
`base_annotation_client.py` never inspects individual annotations, it only
moves lists of them around. -/
abbrev Annotation := Nat

/-- Mirrors `geti_sdk.data_models.AnnotationKind`: the kind tag of an
annotation scene. -/
inductive AnnotationKind where
  | ANNOTATION
  | PREDICTION
deriving DecidableEq, Repr

/-- The fields of `geti_sdk.data_models.AnnotationScene` that
`base_annotation_client.py` reads or writes: the media identifier the scene
is attached to, the ordered annotation list, and the kind tag. -/
structure AnnotationScene where
  media_identifier : String
  annotations : List Annotation
  kind : AnnotationKind
deriving DecidableEq, Repr

/-- Modelled from the spec: `has_data` of an annotation scene (the data
model class is an external collaborator, not part of the source under
study). The spec equates "the scene is empty" with `has_data == false`
("an empty scene (`has_data == false`) is never persisted remotely"), so
`has_data` holds exactly when the annotation list is non-empty. -/
def AnnotationScene.has_data (s : AnnotationScene) : Bool :=
  !s.annotations.isEmpty

/-- Modelled from the spec: `AnnotationScene.extend` (external data-model
method). The spec describes it as "merge the new annotations onto the end
of the existing annotation sequence". -/
def AnnotationScene.extend (s : AnnotationScene) (new : List Annotation) :
    AnnotationScene :=
  { s with annotations := s.annotations ++ new }

/-- Modelled from the spec: `AnnotationScene.apply_identifier` (external
data-model method). The spec describes it as "stamp it with the target
media identifier". -/
def AnnotationScene.apply_identifier (s : AnnotationScene)
    (media_identifier : String) : AnnotationScene :=
  { s with media_identifier := media_identifier }

/-- Which REST converter produced a transport dictionary: the generic
converter `AnnotationRESTConverter` or the legacy pixel-normalized
`NormalizedAnnotationRESTConverter`. -/
inductive DictFormat where
  | generic
  | normalized
deriving DecidableEq, Repr

/-- The transport dictionary for an annotation scene, as consumed/produced
by the two REST converters. The converters themselves are external
collaborators ("treated as pure functions scene↔dict"); the `format` tag
records which converter built the dictionary, which is the only aspect of
their output that the code under study selects between. -/
structure SceneRestDict where
  format : DictFormat
  media_identifier : String
  annotations : List Annotation
  kind : AnnotationKind
deriving DecidableEq, Repr

/-- Embeds `AnnotationRESTConverter.to_dict(scene, deidentify=False)`: the generic
serialization of a scene (geometry handling is internal to the external
converter; on the fields visible to the client it is a projection). -/
def AnnotationRESTConverter.to_dict (s : AnnotationScene) : SceneRestDict :=
  ⟨DictFormat.generic, s.media_identifier, s.annotations, s.kind⟩

/-- Embeds `AnnotationRESTConverter.from_dict(response)`: deserialization of a
transport dictionary into a scene. -/
def AnnotationRESTConverter.from_dict (d : SceneRestDict) : AnnotationScene :=
  ⟨d.media_identifier, d.annotations, d.kind⟩

/-- Embeds `NormalizedAnnotationRESTConverter.to_normalized_dict(scene,
deidentify=False, image_width, image_height)`: the legacy pixel-normalized
serialization, requiring the media dimensions. -/
def NormalizedAnnotationRESTConverter.to_normalized_dict
    (s : AnnotationScene) (image_width image_height : Nat) : SceneRestDict :=
  ⟨DictFormat.normalized, s.media_identifier, s.annotations, s.kind⟩

/-- Embeds `NormalizedAnnotationRESTConverter.normalized_annotation_scene_from_dict`:
legacy deserialization (denormalization of the geometry is internal to the
external converter). -/
def NormalizedAnnotationRESTConverter.normalized_annotation_scene_from_dict
    (d : SceneRestDict) (image_width image_height : Nat) : AnnotationScene :=
  ⟨d.media_identifier, d.annotations, d.kind⟩

/-- The platform-version flags of `self.session.version` read by the
client: `is_sc_mvp` and `is_sc_1_1` select the legacy normalized format. -/
structure PlatformVersion where
  is_sc_mvp : Bool
  is_sc_1_1 : Bool
deriving DecidableEq, Repr

/-- One page of the media REST endpoint, as consumed by
`_get_all_media_in_dataset_by_type`: `media_count` is the declared total
for the requested media kind (the code reads it from the first response
only), `media` the raw items of this page, and `has_next` whether the
response carries a `next_page` URL. Raw media items are opaque
dictionaries to the pagination loop, modelled as `Nat`. -/
structure MediaPage where
  media_count : Nat
  media : List Nat
  has_next : Bool
deriving DecidableEq, Repr

/-- The `while` loop of `_get_all_media_in_dataset_by_type`
(`base_annotation_client.py` lines 115-121), with explicit fuel because the
Python loop does not always terminate.  State: `raw_media_list` is the
accumulator, `response` the current page, `rest` the pages the server would
yield for the successive `next_page` URLs.  Each iteration first checks
`len(raw_media_list) < total_number_of_media`; if so it appends the whole
current page, then advances to the next page only when the response has a
`next_page` key — otherwise `response` is left unchanged and the loop runs
again on the same page.  `none` means the loop either ran out of fuel or
followed a `next_page` URL for which the server yields no response. -/
def mediaPaginationLoop : Nat → Nat → List Nat → MediaPage → List MediaPage →
    Option (List Nat)
  | 0, _, _, _, _ => none
  | fuel + 1, total, raw_media_list, response, rest =>
    if raw_media_list.length < total then
      let raw_media_list := raw_media_list ++ response.media
      if response.has_next then
        match rest with
        | [] => none
        | p :: ps => mediaPaginationLoop fuel total raw_media_list p ps
      else
        mediaPaginationLoop fuel total raw_media_list response rest
    else
      some raw_media_list

/-- Embeds `BaseAnnotationClient._get_all_media_in_dataset_by_type`, after the
media-kind dispatch: issue the initial GET (the first element of `pages`),
read the declared total from it, and run the pagination loop.  The server's
behavior is the list `pages` of successive responses. -/
def getAllMediaInDatasetByType (fuel : Nat) (pages : List MediaPage) :
    Option (List Nat) :=
  match pages with
  | [] => none
  | response :: rest =>
    mediaPaginationLoop fuel response.media_count [] response rest

/-- A well-formed server reply sequence for one enumeration: every page
except the last carries a `next_page` URL and the last does not. -/
def pageChainWF : MediaPage → List MediaPage → Prop
  | p, [] => p.has_next = false
  | p, q :: qs => p.has_next = true ∧ pageChainWF q qs

instance : ∀ p ps, Decidable (pageChainWF p ps) := by
  intro p ps
  induction ps generalizing p with
  | nil => exact (inferInstance : Decidable (_ = false))
  | cons q qs ih => exact @instDecidableAnd _ _ _ (ih q)

/-- Total number of items a page sequence yields. -/
def pagesItemCount (pages : List MediaPage) : Nat :=
  (pages.map (fun p => p.media.length)).sum

/-- Concatenation of the items of a page sequence, in server-yielded
order. -/
def pagesItems (pages : List MediaPage) : List Nat :=
  (pages.map (fun p => p.media)).flatten

/-- Python dict key-membership test (`k in d`) for an insertion-ordered
dictionary represented as a list of key-value pairs. -/
def pyDictHasKey (d : List (String × String)) (k : String) : Bool :=
  d.any (fun p => p.1 == k)

/-- Python dict insertion: overwrite the value in place when the key is
present, append otherwise. -/
def pyDictInsert (d : List (String × String)) (k v : String) :
    List (String × String) :=
  if d.any (fun p => p.1 == k) then
    d.map (fun p => if p.1 == k then (k, v) else p)
  else
    d ++ [(k, v)]

/-- Python dict comprehension over a pair sequence: insert each pair in
order, later pairs with the same key overwriting earlier ones. -/
def pyDictOfPairs (pairs : List (String × String)) :
    List (String × String) :=
  pairs.foldl (fun d p => pyDictInsert d p.1 p.2) []

/-- The validation `for` loop of `__get_label_mapping`
(`base_annotation_client.py` lines 139-144): walk the source label names
in order and raise, naming the offending label, at the first name that is
not a key of the inverted project mapping. -/
def labelMappingLoop (project_label_name_to_id_mapping :
    List (String × String)) : List String → Except String Unit
  | [] => Except.ok ()
  | source_label_name :: rest =>
    if pyDictHasKey project_label_name_to_id_mapping source_label_name then
      labelMappingLoop project_label_name_to_id_mapping rest
    else
      Except.error source_label_name

/-- Embeds `BaseAnnotationClient.__get_label_mapping`: invert the project's
label-id-to-name mapping into a name-to-id dictionary, check every source
label name against it (raising `ValueError` naming the first missing
label), and return the full inverted mapping.  `source_label_names` is
what `annotation_reader.get_all_label_names()` yields and
`label_id_to_name_mapping` the pairs of
`project.pipeline.label_id_to_name_mapping`. -/
def getLabelMapping (source_label_names : List String)
    (label_id_to_name_mapping : List (String × String)) :
    Except String (List (String × String)) :=
  match labelMappingLoop
      (pyDictOfPairs (label_id_to_name_mapping.map (fun p => (p.2, p.1))))
      source_label_names with
  | Except.error source_label_name => Except.error source_label_name
  | Except.ok _ =>
    Except.ok
      (pyDictOfPairs (label_id_to_name_mapping.map (fun p => (p.2, p.1))))

/-- The label names of a project mapping (the values of the id-to-name
pairs). -/
def projectLabelNames (label_id_to_name_mapping :
    List (String × String)) : List String :=
  label_id_to_name_mapping.map Prod.snd

/-- The outcome of one transport call (`session.get_rest_response`): either
a response value, or a raised `GetiRequestException` carrying an HTTP
status code. -/
inductive RestResult (α : Type) where
  | success : α → RestResult α
  | failure : Nat → RestResult α
deriving DecidableEq, Repr

/-- Embeds `BaseAnnotationClient.annotation_scene_from_rest_response`: convert an
/annotations response dictionary into a scene, selecting the legacy
normalized converter on SC MVP / SC 1.1 platforms and the generic
converter otherwise.  `width` and `height` are the
`media_information.width/height` of the media item. -/
def annotation_scene_from_rest_response (version : PlatformVersion)
    (response_dict : SceneRestDict) (width height : Nat) :
    AnnotationScene :=
  if version.is_sc_mvp || version.is_sc_1_1 then
    NormalizedAnnotationRESTConverter.normalized_annotation_scene_from_dict
      response_dict width height
  else
    AnnotationRESTConverter.from_dict response_dict

/-- Embeds `BaseAnnotationClient._get_latest_annotation_for_2d_media_item`: GET
the media item's latest-annotation endpoint; a `GetiRequestException` with
status code 204 or 404 becomes `none`, any other raised status code is
re-raised (the `Except.error` result), and a successful response is
deserialized via `annotation_scene_from_rest_response`. -/
def getLatestAnnotationFor2dMediaItem (version : PlatformVersion)
    (width height : Nat) (transport : RestResult SceneRestDict) :
    Except Nat (Option AnnotationScene) :=
  match transport with
  | RestResult.failure status_code =>
    if status_code = 204 ∨ status_code = 404 then
      Except.ok none
    else
      Except.error status_code
  | RestResult.success response =>
    Except.ok (some (annotation_scene_from_rest_response version response
      width height))

/-- A POST payload for the /annotations endpoint: the transport dictionary
after the code pops the `kind` key (and, for append, the absent-in-model
`annotation_state_per_task` and `id` keys). -/
structure PostPayload where
  format : DictFormat
  media_identifier : String
  annotations : List Annotation
deriving DecidableEq, Repr

/-- Embeds `rest_data.pop("kind")`: drop the kind key from a transport dict. -/
def SceneRestDict.pop_kind (d : SceneRestDict) : PostPayload :=
  ⟨d.format, d.media_identifier, d.annotations⟩

/-- Embeds `BaseAnnotationClient._read_2d_media_annotation_from_source`: read the
annotation list for the media item from the annotation reader
(`reader_annotations` is what `annotation_reader.get_data(...)` yields)
and convert the dict `{media_identifier, annotations, kind: ANNOTATION}`
into a scene. -/
def read2dMediaAnnotationFromSource (media_identifier : String)
    (reader_annotations : List Annotation) : AnnotationScene :=
  AnnotationRESTConverter.from_dict
    ⟨DictFormat.generic, media_identifier, reader_annotations,
      AnnotationKind.ANNOTATION⟩

/-- Embeds `BaseAnnotationClient._append_annotation_for_2d_media_item`: read the
new annotations from the source, fetch the latest scene (a `None` result
becomes a fresh empty scene of kind annotation), extend the existing
annotation list with the new annotations, and if the merged scene has
data, serialize it (version-gated format), pop the transport-only keys
and POST it, returning the server's response parsed by the generic
converter; if the merged scene is empty, return it without a network
call.  The result pairs the POSTed payload (`none` when no POST was
issued) with the returned scene; `latest_transport` and `post_transport`
describe the server's behavior on the GET and POST calls. -/
def appendAnnotationFor2dMediaItem (version : PlatformVersion)
    (media_identifier : String) (width height : Nat)
    (reader_annotations : List Annotation)
    (latest_transport post_transport : RestResult SceneRestDict) :
    Except Nat (Option PostPayload × AnnotationScene) :=
  match getLatestAnnotationFor2dMediaItem version width height
      latest_transport with
  | Except.error c => Except.error c
  | Except.ok latest =>
    let annotation_scene :=
      (match latest with
       | none =>
         ({ media_identifier := media_identifier, annotations := [],
            kind := AnnotationKind.ANNOTATION } : AnnotationScene)
       | some s => s).extend
        (read2dMediaAnnotationFromSource media_identifier
          reader_annotations).annotations
    if annotation_scene.has_data then
      match post_transport with
      | RestResult.failure c => Except.error c
      | RestResult.success response =>
        Except.ok
          (some (SceneRestDict.pop_kind
            (if version.is_sc_mvp || version.is_sc_1_1 then
              NormalizedAnnotationRESTConverter.to_normalized_dict
                annotation_scene width height
            else
              AnnotationRESTConverter.to_dict annotation_scene)),
          AnnotationRESTConverter.from_dict response)
    else
      Except.ok (none, annotation_scene)

/-- The failure modes of `_upload_annotation_for_2d_media_item`: the
`ValueError` raised when neither a scene nor an annotation reader is
available, or a propagated transport failure from the POST. -/
inductive UploadError where
  | valueError
  | requestFailure : Nat → UploadError
deriving DecidableEq, Repr

/-- Embeds `BaseAnnotationClient._upload_annotation_for_2d_media_item`: choose the
scene to upload (a supplied scene stamped with the media identifier, else
one read from the annotation reader, else raise `ValueError`); if it has
data, prepare it for POST, serialize it (version-gated format), pop the
`kind` key and POST it; either way return the scene.  `prepare_for_post`
is the scene's external in-place transmission canonicalization (an opaque
scene transformer); `reader_annotations` is `none` when no annotation
reader is configured.  The result pairs the POSTed payload (`none` when
no POST was issued) with the returned scene. -/
def uploadAnnotationFor2dMediaItem (version : PlatformVersion)
    (media_identifier : String) (width height : Nat)
    (annotation_scene : Option AnnotationScene)
    (reader_annotations : Option (List Annotation))
    (prepare_for_post : AnnotationScene → AnnotationScene)
    (post_transport : RestResult SceneRestDict) :
    Except UploadError (Option PostPayload × AnnotationScene) :=
  match (match annotation_scene with
    | some s => Except.ok (s.apply_identifier media_identifier)
    | none =>
      match reader_annotations with
      | some ra =>
        Except.ok (read2dMediaAnnotationFromSource media_identifier ra)
      | none => Except.error UploadError.valueError) with
  | Except.error e => Except.error e
  | Except.ok scene_to_upload =>
    if scene_to_upload.has_data then
      match post_transport with
      | RestResult.failure c => Except.error (UploadError.requestFailure c)
      | RestResult.success _ =>
        Except.ok
          (some (SceneRestDict.pop_kind
            (if version.is_sc_mvp || version.is_sc_1_1 then
              NormalizedAnnotationRESTConverter.to_normalized_dict
                (prepare_for_post scene_to_upload) width height
            else
              AnnotationRESTConverter.to_dict
                (prepare_for_post scene_to_upload))),
          prepare_for_post scene_to_upload)
    else
      Except.ok (none, scene_to_upload)

/-- Character-level scan for `os.path.basename`: keep the characters
collected since the last `/`. -/
def basenameAux : List Char → List Char → List Char
  | acc, [] => acc.reverse
  | acc, c :: cs =>
    if c = '/' then basenameAux [] cs else basenameAux (c :: acc) cs

/-- Embeds `os.path.basename` for the POSIX paths used here: the substring after
the last slash. -/
def osPathBasename (s : String) : String :=
  String.mk (basenameAux [] s.data)

/-- Character-level scan for Python's `s.split(sep)[0]` with a non-empty
separator: the text before the first occurrence of `sep`. -/
def textBeforeFirstAux (sep : List Char) : List Char → List Char
  | [] => []
  | c :: cs =>
    if sep.isPrefixOf (c :: cs) then [] else c :: textBeforeFirstAux sep cs

/-- Python's `s.split(sep)[0]` for a non-empty separator. -/
def textBeforeFirst (sep s : String) : String :=
  String.mk (textBeforeFirstAux sep.data s.data)

/-- Embeds `os.path.join` for the relative POSIX paths used here. -/
def osPathJoin (a b : String) : String :=
  a ++ "/" ++ b

/-- The two 2d media kinds accepted by
`_download_annotations_for_2d_media_list`, with the fields the filename
derivation reads: an `Image` has a name and an id; a `VideoFrame` has a
name, an optional parent-video name (`video_name`), and
`media_information.video_id` / `media_information.frame_index`. -/
inductive MediaItem2d where
  | image : (name : String) → (id : String) → MediaItem2d
  | videoFrame : (name : String) → (video_name : Option String) →
      (video_id : String) → (frame_index : Nat) → MediaItem2d
deriving DecidableEq, Repr

/-- The filename computation of `_download_annotations_for_2d_media_list`
(`base_annotation_client.py` lines 411-434): default
`basename(name) + ".json"`; with `append_media_uid`, an Image gets
`{base}_{id}.json` and a VideoFrame gets
`{base_video}_{video_id}_frame_{frame_index}.json`, where `base_video` is
the basename of the parent video's name when known and otherwise the text
before the first `"_frame_"` in the item's own base name
(`base.split("_frame_")[0]`). -/
def deriveAnnotationFilename (media_item : MediaItem2d)
    (append_media_uid : Bool) : String :=
  match media_item with
  | MediaItem2d.image name id =>
    let base_media_item_name := osPathBasename name
    if append_media_uid then
      base_media_item_name ++ "_" ++ id ++ ".json"
    else
      base_media_item_name ++ ".json"
  | MediaItem2d.videoFrame name video_name video_id frame_index =>
    let base_media_item_name := osPathBasename name
    if append_media_uid then
      match video_name with
      | some vn =>
        osPathBasename vn ++ "_" ++ video_id ++ "_frame_" ++
          toString frame_index ++ ".json"
      | none =>
        textBeforeFirst "_frame_" base_media_item_name ++ "_" ++
          video_id ++ "_frame_" ++ toString frame_index ++ ".json"
    else
      base_media_item_name ++ ".json"

/-- One media item of a bulk download, with the `media_information`
dimensions its converters would receive and the transport behavior of the
GET on its latest-annotation endpoint. -/
structure DownloadItem where
  media_item : MediaItem2d
  width : Nat
  height : Nat
  transport : RestResult SceneRestDict
deriving DecidableEq, Repr

/-- A file written by the bulk download: its path, the dictionary dumped
into it, and the `json.dump` indent argument. -/
structure WrittenFile where
  path : String
  data : SceneRestDict
  indent : Nat
deriving DecidableEq, Repr

/-- The `for media_item in media_list` loop of
`_download_annotations_for_2d_media_list` (`base_annotation_client.py`
lines 388-440): fetch the latest scene for each item in order; count the
item as skipped when the fetch is absent or the scene's kind is not
annotation; otherwise serialize the scene with the generic converter,
derive the filename, write the JSON file (indent 4) and count the item as
downloaded.  A transport failure other than 204/404 propagates and aborts
the whole loop.  Returns the counters and the files written. -/
def downloadAnnotationsLoop (version : PlatformVersion)
    (path_to_annotations_folder : String) (append_media_uid : Bool) :
    List DownloadItem → Nat → Nat → List WrittenFile →
    Except Nat (Nat × Nat × List WrittenFile)
  | [], download_count, skip_count, written =>
    Except.ok (download_count, skip_count, written)
  | item :: rest, download_count, skip_count, written =>
    match getLatestAnnotationFor2dMediaItem version item.width item.height
        item.transport with
    | Except.error c => Except.error c
    | Except.ok none =>
      downloadAnnotationsLoop version path_to_annotations_folder
        append_media_uid rest download_count (skip_count + 1) written
    | Except.ok (some annotation_scene) =>
      if annotation_scene.kind ≠ AnnotationKind.ANNOTATION then
        downloadAnnotationsLoop version path_to_annotations_folder
          append_media_uid rest download_count (skip_count + 1) written
      else
        downloadAnnotationsLoop version path_to_annotations_folder
          append_media_uid rest (download_count + 1) skip_count
          (written ++ [⟨osPathJoin path_to_annotations_folder
              (deriveAnnotationFilename item.media_item append_media_uid),
            AnnotationRESTConverter.to_dict annotation_scene, 4⟩])

/-- Embeds `BaseAnnotationClient._download_annotations_for_2d_media_list`: build
the `{path_to_folder}/annotations` folder path, run the download loop
with both counters at zero, and return the elapsed wall-clock time
`t_end - t_start` together with the counters and written files
(`t_start` and `t_end` are the two `time.time()` readings). -/
def downloadAnnotationsFor2dMediaList (version : PlatformVersion)
    (path_to_folder : String) (append_media_uid : Bool)
    (media_list : List DownloadItem) (t_start t_end : Int) :
    Except Nat (Nat × Nat × List WrittenFile × Int) :=
  match downloadAnnotationsLoop version
      (osPathJoin path_to_folder "annotations") append_media_uid
      media_list 0 0 [] with
  | Except.error c => Except.error c
  | Except.ok (download_count, skip_count, written) =>
    Except.ok (download_count, skip_count, written, t_end - t_start)

/-- Whether the bulk download loop skips this item: its fetch maps to the
absent result, or the fetched scene's kind is not annotation. -/
def itemSkipped (version : PlatformVersion) (item : DownloadItem) : Bool :=
  match getLatestAnnotationFor2dMediaItem version item.width item.height
      item.transport with
  | Except.error _ => false
  | Except.ok none => true
  | Except.ok (some annotation_scene) =>
    annotation_scene.kind ≠ AnnotationKind.ANNOTATION

/-- Whether this item's fetch raises a transport error that is not mapped
to the absent result (such an error aborts the whole bulk download). -/
def itemFetchFails (version : PlatformVersion) (item : DownloadItem) :
    Bool :=
  match getLatestAnnotationFor2dMediaItem version item.width item.height
      item.transport with
  | Except.error _ => true
  | Except.ok _ => false

instance {e a : Type} [DecidableEq e] [DecidableEq a] :
    DecidableEq (Except e a) := fun x y =>
  match x, y with
  | Except.error u, Except.error v =>
    if h : u = v then isTrue (by rw [h])
    else isFalse (fun hc => h (by injection hc))
  | Except.error _, Except.ok _ => isFalse (fun hc => Except.noConfusion hc)
  | Except.ok _, Except.error _ => isFalse (fun hc => Except.noConfusion hc)
  | Except.ok u, Except.ok v =>
    if h : u = v then isTrue (by rw [h])
    else isFalse (fun hc => h (by injection hc))

/-- Runtime failures of `ImageManager.upload_image`
(`sc_api_tools/rest_managers/media_managers/image_manager.py` lines
27-41): a `NameError` from evaluating an undefined module-level name, or
an `UnboundLocalError` from reading a local variable that was never
assigned. -/
inductive PyRuntimeError where
  | nameError : String → PyRuntimeError
  | unboundLocalError : String → PyRuntimeError
deriving DecidableEq, Repr

/-- The runtime type classes `upload_image` dispatches on: a `str` or
`os.PathLike` path, a `numpy.ndarray` (pixel data opaque), or any other
object. -/
inductive UploadImageInput where
  | path : String → UploadImageInput
  | ndarray : List Nat → UploadImageInput
  | otherObject : UploadImageInput
deriving DecidableEq, Repr

/-- Embeds `ImageManager.upload_image`.  The module imports are `glob`, `os`,
`typing`, `numpy`, the sibling `media_manager` and the package's
`data_models` / `rest_converters` — `cv2` is never imported, so in the
`np.ndarray` branch evaluating `cv2.imencode('.jpg', image)` raises
`NameError: cv2` before `self.upload_bytes` is invoked; an input matching
neither `isinstance` check skips both branches and reaches
`return MediaRESTConverter.from_dict(input_dict=image_dict, ...)` with
the local `image_dict` unbound, raising `UnboundLocalError`.  The first
component of the result lists the upload calls actually performed
(`self._upload(image)` for a path input); `upload_result` stands for the
external `_upload` transport call, returning the image dict (opaque,
modelled as `Nat`) that `MediaRESTConverter.from_dict` turns into the
returned `Image`. -/
def upload_image (upload_result : String → Nat)
    (image : UploadImageInput) :
    List String × Except PyRuntimeError Nat :=
  match image with
  | UploadImageInput.path p => ([p], Except.ok (upload_result p))
  | UploadImageInput.ndarray _ =>
    ([], Except.error (PyRuntimeError.nameError "cv2"))
  | UploadImageInput.otherObject =>
    ([], Except.error (PyRuntimeError.unboundLocalError "image_dict"))

@[simp]
theorem pagesItemCount_nil : pagesItemCount [] = 0 := rfl

@[simp]
theorem pagesItemCount_cons (p : MediaPage) (ps : List MediaPage) :
    pagesItemCount (p :: ps) = p.media.length + pagesItemCount ps := by
  simp [pagesItemCount]

@[simp]
theorem pagesItems_nil : pagesItems [] = [] := rfl

@[simp]
theorem pagesItems_cons (p : MediaPage) (ps : List MediaPage) :
    pagesItems (p :: ps) = p.media ++ pagesItems ps := by
  simp [pagesItems]

theorem pagesItems_length (pages : List MediaPage) :
    (pagesItems pages).length = pagesItemCount pages := by
  induction pages with
  | nil => rfl
  | cons p ps ih => simp [ih]

theorem pagesItemCount_zero_items {pages : List MediaPage}
    (h : pagesItemCount pages = 0) : pagesItems pages = [] := by
  have := pagesItems_length pages
  rw [h] at this
  exact List.eq_nil_of_length_eq_zero this

/-- One unfolding of the pagination loop at positive fuel. -/
theorem mediaPaginationLoop_succ (fuel total : Nat) (acc : List Nat)
    (p : MediaPage) (rest : List MediaPage) :
    mediaPaginationLoop (fuel + 1) total acc p rest =
      if acc.length < total then
        if p.has_next then
          match rest with
          | [] => none
          | q :: qs => mediaPaginationLoop fuel total (acc ++ p.media) q qs
        else
          mediaPaginationLoop fuel total (acc ++ p.media) p rest
      else
        some acc := rfl

/-- Main pagination invariant: on a well-formed page chain whose item
count matches what remains to be collected, the loop returns the
accumulator followed by every page's items, in order, for any
sufficiently large fuel. -/
theorem mediaPaginationLoop_wf (ps : List MediaPage) :
    ∀ (p : MediaPage) (acc : List Nat) (total fuel : Nat),
    ps.length + 2 ≤ fuel →
    pageChainWF p ps →
    acc.length + p.media.length + pagesItemCount ps = total →
    mediaPaginationLoop fuel total acc p ps =
      some (acc ++ pagesItems (p :: ps)) := by
  induction ps with
  | nil =>
    intro p acc total fuel hfuel hwf hlen
    have hnext : p.has_next = false := hwf
    rw [pagesItemCount_nil] at hlen
    obtain ⟨f, rfl⟩ : ∃ f, fuel = f + 1 := ⟨fuel - 1, by omega⟩
    rw [mediaPaginationLoop_succ]
    by_cases hlt : acc.length < total
    · -- append the page's items; the loop then stays on the same page and
      -- the next length check terminates it
      rw [if_pos hlt, if_neg (by simp [hnext])]
      obtain ⟨g, rfl⟩ : ∃ g, f = g + 1 := ⟨f - 1, by omega⟩
      rw [mediaPaginationLoop_succ,
        if_neg (by simp only [List.length_append]; omega)]
      simp
    · -- the accumulator already reaches the total, which forces the page
      -- to be empty
      rw [if_neg hlt]
      have hpm : p.media = [] :=
        List.eq_nil_of_length_eq_zero (by omega)
      simp [hpm]
  | cons q qs ih =>
    intro p acc total fuel hfuel hwf hlen
    obtain ⟨hnext, hwf'⟩ := hwf
    obtain ⟨f, rfl⟩ : ∃ f, fuel = f + 1 := ⟨fuel - 1, by omega⟩
    rw [mediaPaginationLoop_succ]
    by_cases hlt : acc.length < total
    · rw [if_pos hlt, if_pos hnext]
      have hlen' : (acc ++ p.media).length + q.media.length +
          pagesItemCount qs = total := by
        simp only [pagesItemCount_cons] at hlen
        simp only [List.length_append]
        omega
      have hfuel' : qs.length + 2 ≤ f := by
        simp only [List.length_cons] at hfuel
        omega
      show mediaPaginationLoop f total (acc ++ p.media) q qs = _
      rw [ih q (acc ++ p.media) total f hfuel' hwf' hlen']
      simp
    · -- the accumulator already reaches the total: every later page must
      -- be empty, and the loop returns the accumulator unchanged
      rw [if_neg hlt]
      simp only [pagesItemCount_cons] at hlen
      have hp : p.media = [] :=
        List.eq_nil_of_length_eq_zero (by omega)
      have hq : q.media = [] :=
        List.eq_nil_of_length_eq_zero (by omega)
      have hqs : pagesItems qs = [] :=
        pagesItemCount_zero_items (by omega)
      simp [hp, hq, hqs]

/-- C1: For every dataset and recognized media kind, media enumeration
returns exactly T items in server-yielded order, where T is the total count
declared in the first page response, regardless of how many pages the
server yields and of the sizes of the individual pages (no item
duplicated, no item dropped).  Stated over every well-formed server reply
sequence: the pages carry a `next_page` URL exactly up to the last page,
and together they yield the T items the first response declared. -/
theorem getAllMedia_returns_declared_total (p : MediaPage)
    (ps : List MediaPage) (fuel : Nat)
    (hfuel : (p :: ps).length + 1 ≤ fuel) (hwf : pageChainWF p ps)
    (htotal : pagesItemCount (p :: ps) = p.media_count) :
    getAllMediaInDatasetByType fuel (p :: ps) =
      some (pagesItems (p :: ps)) ∧
    (pagesItems (p :: ps)).length = p.media_count := by
  constructor
  · have hlen : (([] : List Nat)).length + p.media.length +
        pagesItemCount ps = p.media_count := by
      simp only [pagesItemCount_cons] at htotal
      simp only [List.length_nil]
      omega
    have hfuel' : ps.length + 2 ≤ fuel := by
      simp only [List.length_cons] at hfuel
      omega
    have := mediaPaginationLoop_wf ps p [] p.media_count fuel hfuel'
      hwf hlen
    simp only [getAllMediaInDatasetByType]
    rw [this]
    simp
  · rw [pagesItems_length]; exact htotal

/-- Witness for C1: a server yielding 5 items over three pages of sizes
2, 2, 1 with declared total 5. -/
theorem getAllMedia_returns_declared_total_witness :
    getAllMediaInDatasetByType 5
        [⟨5, [10, 11], true⟩, ⟨5, [12, 13], true⟩, ⟨5, [14], false⟩] =
      some [10, 11, 12, 13, 14] ∧
    (pagesItems [⟨5, [10, 11], true⟩, ⟨5, [12, 13], true⟩,
        ⟨5, [14], false⟩]).length = 5 := by
  have h := getAllMedia_returns_declared_total ⟨5, [10, 11], true⟩
    [⟨5, [12, 13], true⟩, ⟨5, [14], false⟩] 5 (by decide) (by decide)
    (by decide)
  exact ⟨by rw [h.1]; decide, h.2⟩

theorem pyDictHasKey_iff (d : List (String × String)) (k : String) :
    pyDictHasKey d k = true ↔ ∃ p ∈ d, p.1 = k := by
  simp [pyDictHasKey, List.any_eq_true, beq_iff_eq]

theorem mem_keys_pyDictInsert (d : List (String × String)) (k v k' : String) :
    (∃ p ∈ pyDictInsert d k v, p.1 = k') ↔ (∃ p ∈ d, p.1 = k') ∨ k' = k := by
  unfold pyDictInsert
  by_cases h : d.any (fun p => p.1 == k)
  · rw [if_pos h]
    have hk : ∃ p ∈ d, p.1 = k := by
      simpa [List.any_eq_true, beq_iff_eq] using h
    have hkey : ∀ q : String × String,
        ((if q.1 == k then (k, v) else q) : String × String).1 = q.1 := by
      intro q
      by_cases hq : q.1 == k
      · have : q.1 = k := by simpa [beq_iff_eq] using hq
        simp [hq, this]
      · simp [hq]
    constructor
    · rintro ⟨p, hp, hpk⟩
      obtain ⟨q, hq, rfl⟩ := List.mem_map.mp hp
      rw [hkey q] at hpk
      exact Or.inl ⟨q, hq, hpk⟩
    · rintro (⟨q, hq, hqk⟩ | rfl)
      · exact ⟨_, List.mem_map.mpr ⟨q, hq, rfl⟩, by rw [hkey q]; exact hqk⟩
      · obtain ⟨q, hq, hqk⟩ := hk
        exact ⟨_, List.mem_map.mpr ⟨q, hq, rfl⟩, by rw [hkey q]; exact hqk⟩
  · rw [if_neg h]
    simp only [List.mem_append, List.mem_singleton]
    constructor
    · rintro ⟨p, hp | rfl, hpk⟩
      · exact Or.inl ⟨p, hp, hpk⟩
      · exact Or.inr hpk.symm
    · rintro (⟨p, hp, hpk⟩ | heq)
      · exact ⟨p, Or.inl hp, hpk⟩
      · exact ⟨(k, v), Or.inr rfl, heq.symm⟩

theorem mem_keys_pyDictOfPairs (pairs : List (String × String))
    (k : String) :
    (∃ p ∈ pyDictOfPairs pairs, p.1 = k) ↔ ∃ p ∈ pairs, p.1 = k := by
  suffices h : ∀ (ps d : List (String × String)),
      (∃ p ∈ List.foldl (fun d p => pyDictInsert d p.1 p.2) d ps, p.1 = k)
        ↔ ((∃ p ∈ d, p.1 = k) ∨ ∃ p ∈ ps, p.1 = k) by
    have := h pairs []
    simpa [pyDictOfPairs] using this
  intro ps
  induction ps with
  | nil => intro d; simp
  | cons q qs ih =>
    intro d
    rw [List.foldl_cons, ih (pyDictInsert d q.1 q.2),
      mem_keys_pyDictInsert]
    simp only [List.mem_cons]
    constructor
    · rintro ((h | rfl) | ⟨p, hp, hpk⟩)
      · exact Or.inl h
      · exact Or.inr ⟨q, Or.inl rfl, rfl⟩
      · exact Or.inr ⟨p, Or.inr hp, hpk⟩
    · rintro (h | ⟨p, rfl | hp, hpk⟩)
      · exact Or.inl (Or.inl h)
      · exact Or.inl (Or.inr hpk.symm)
      · exact Or.inr ⟨p, hp, hpk⟩

theorem pyDictHasKey_inverted_iff
    (label_id_to_name_mapping : List (String × String)) (n : String) :
    pyDictHasKey
        (pyDictOfPairs (label_id_to_name_mapping.map (fun p => (p.2, p.1))))
        n = true ↔
      n ∈ projectLabelNames label_id_to_name_mapping := by
  rw [pyDictHasKey_iff, mem_keys_pyDictOfPairs]
  unfold projectLabelNames
  constructor
  · rintro ⟨p, hp, hpn⟩
    obtain ⟨q, hq, rfl⟩ := List.mem_map.mp hp
    exact List.mem_map.mpr ⟨q, hq, hpn⟩
  · intro hn
    obtain ⟨q, hq, hqn⟩ := List.mem_map.mp hn
    exact ⟨(q.2, q.1), List.mem_map.mpr ⟨q, hq, rfl⟩, hqn⟩

theorem labelMappingLoop_ok_iff
    (d : List (String × String)) (src : List String) :
    labelMappingLoop d src = Except.ok () ↔
      ∀ n ∈ src, pyDictHasKey d n = true := by
  induction src with
  | nil => simp [labelMappingLoop]
  | cons n ns ih =>
    by_cases h : pyDictHasKey d n
    · simp [labelMappingLoop, h, ih]
    · simp [labelMappingLoop, h]

theorem labelMappingLoop_error_iff
    (d : List (String × String)) (src : List String) (n : String) :
    labelMappingLoop d src = Except.error n ↔
      src.find? (fun x => !(pyDictHasKey d x)) = some n := by
  induction src with
  | nil => simp [labelMappingLoop, List.find?]
  | cons m ms ih =>
    by_cases h : pyDictHasKey d m
    · simp [labelMappingLoop, h, ih, List.find?]
    · have hb : pyDictHasKey d m = false := by
        simpa using h
      simp [labelMappingLoop, hb, List.find?, eq_comm]

/-- C2 (divergence of the code from the claim): when a response carries
fewer accumulated items than the declared total and no `next_page` key,
the loop at lines 115-121 does not stop: the `while` condition only tests
the accumulated count against the declared total, so the unchanged final
response is appended again.  On a single page declaring 3 items but
carrying only `[1, 2]` and no next page, the enumeration returns
`[1, 2, 1, 2]` — the items collected so far duplicated — instead of the
claimed `[1, 2]`; and on a page declaring 1 item but carrying none, the
loop never terminates (no fuel suffices). -/
theorem getAllMedia_short_page_diverges :
    getAllMediaInDatasetByType 10 [⟨3, [1, 2], false⟩] =
      some [1, 2, 1, 2] ∧
    (∀ fuel : Nat, getAllMediaInDatasetByType fuel [⟨1, [], false⟩]
      = none) := by
  constructor
  · decide
  · intro fuel
    show mediaPaginationLoop fuel 1 [] ⟨1, [], false⟩ [] = none
    have key : ∀ n : Nat, mediaPaginationLoop n 1 [] ⟨1, [], false⟩ [] =
        none := by
      intro n
      induction n with
      | zero => rfl
      | succ k ih =>
        rw [mediaPaginationLoop_succ]
        simpa using ih
    exact key fuel

theorem pyDictHasKey_inverted_decide
    (proj : List (String × String)) (x : String) :
    pyDictHasKey (pyDictOfPairs (proj.map (fun p => (p.2, p.1)))) x =
      decide (x ∈ projectLabelNames proj) := by
  by_cases hx : x ∈ projectLabelNames proj
  · rw [decide_eq_true hx]
    exact (pyDictHasKey_inverted_iff proj x).mpr hx
  · rw [decide_eq_false hx]
    exact Bool.eq_false_iff.mpr
      (fun h => hx ((pyDictHasKey_inverted_iff proj x).mp h))

/-- C3: For every set S of source label names and every project label set
P, label-mapping resolution succeeds and returns the full name-to-id
mapping if and only if every name in S is a label name of P; otherwise it
raises an error naming the first offending label (in source order) and
returns no partial mapping (the error result carries only the label
name, and the keys of a returned mapping are exactly the project's label
names). -/
theorem getLabelMapping_resolve (src : List String)
    (proj : List (String × String)) :
    (getLabelMapping src proj =
        Except.ok (pyDictOfPairs (proj.map (fun p => (p.2, p.1)))) ↔
      ∀ n ∈ src, n ∈ projectLabelNames proj) ∧
    (∀ n, getLabelMapping src proj = Except.error n →
      src.find? (fun x => !(decide (x ∈ projectLabelNames proj)))
        = some n) ∧
    (∀ k, (∃ p ∈ pyDictOfPairs (proj.map (fun p => (p.2, p.1))), p.1 = k)
      ↔ k ∈ projectLabelNames proj) := by
  refine ⟨?_, ?_, ?_⟩
  · rcases hloop : labelMappingLoop
        (pyDictOfPairs (proj.map (fun p => (p.2, p.1)))) src with e | u
    · have heq : getLabelMapping src proj = Except.error e := by
        unfold getLabelMapping
        rw [hloop]
      rw [heq]
      constructor
      · intro h
        exact absurd h (by simp)
      · intro hall
        exfalso
        have hok : labelMappingLoop
            (pyDictOfPairs (proj.map (fun p => (p.2, p.1)))) src =
            Except.ok () := by
          rw [labelMappingLoop_ok_iff]
          intro n hn
          rw [pyDictHasKey_inverted_decide proj n]
          exact decide_eq_true (hall n hn)
        rw [hloop] at hok
        exact absurd hok (by simp)
    · have heq : getLabelMapping src proj =
          Except.ok (pyDictOfPairs (proj.map (fun p => (p.2, p.1)))) := by
        unfold getLabelMapping
        rw [hloop]
      rw [heq]
      constructor
      · intro _ n hn
        have hok := (labelMappingLoop_ok_iff
          (pyDictOfPairs (proj.map (fun p => (p.2, p.1)))) src).mp
          (by rw [hloop])
        have h2 := hok n hn
        rw [pyDictHasKey_inverted_decide proj n] at h2
        exact of_decide_eq_true h2
      · intro _
        rfl
  · intro n herr
    rcases hloop : labelMappingLoop
        (pyDictOfPairs (proj.map (fun p => (p.2, p.1)))) src with e | u
    · have heq : getLabelMapping src proj = Except.error e := by
        unfold getLabelMapping
        rw [hloop]
      rw [heq] at herr
      have hne : e = n := by simpa using herr
      rw [← hne]
      have hfind := (labelMappingLoop_error_iff
        (pyDictOfPairs (proj.map (fun p => (p.2, p.1)))) src e).mp hloop
      rw [← hfind]
      congr 1
      funext x
      rw [pyDictHasKey_inverted_decide proj x]
    · have heq : getLabelMapping src proj =
          Except.ok (pyDictOfPairs (proj.map (fun p => (p.2, p.1)))) := by
        unfold getLabelMapping
        rw [hloop]
      rw [heq] at herr
      exact absurd herr (by simp)
  · intro k
    have := pyDictHasKey_inverted_iff proj k
    rw [pyDictHasKey_iff] at this
    exact this

/-- Witness for C3: two source labels both present in a two-label project
resolve to the full inverted mapping, and a missing source label is
reported by name. -/
theorem getLabelMapping_resolve_witness :
    getLabelMapping ["dog", "cat"] [("id1", "cat"), ("id2", "dog")] =
      Except.ok [("cat", "id1"), ("dog", "id2")] ∧
    getLabelMapping ["cat", "bird", "fish"] [("id1", "cat")] =
      Except.error "bird" := by
  constructor
  · exact (getLabelMapping_resolve ["dog", "cat"]
      [("id1", "cat"), ("id2", "dog")]).1.mpr (by decide)
  · rfl

/-- C4: For every media item, fetching the latest annotation scene returns
the absent result (None) exactly when the transport raises a request
exception with status code 204 or 404; a transport exception with any
other status code is re-raised unchanged, and a successful response is
deserialized into a scene. -/
theorem getLatest_absent_iff (version : PlatformVersion)
    (width height : Nat) (transport : RestResult SceneRestDict) :
    (getLatestAnnotationFor2dMediaItem version width height transport =
        Except.ok none ↔
      transport = RestResult.failure 204 ∨
        transport = RestResult.failure 404) ∧
    (∀ c, transport = RestResult.failure c → c ≠ 204 → c ≠ 404 →
      getLatestAnnotationFor2dMediaItem version width height transport =
        Except.error c) ∧
    (∀ d, transport = RestResult.success d →
      getLatestAnnotationFor2dMediaItem version width height transport =
        Except.ok (some (annotation_scene_from_rest_response version d
          width height))) := by
  refine ⟨?_, ?_, ?_⟩
  · cases transport with
    | success d =>
      simp [getLatestAnnotationFor2dMediaItem]
    | failure c =>
      by_cases hc : c = 204 ∨ c = 404
      · simp only [getLatestAnnotationFor2dMediaItem, if_pos hc]
        constructor
        · intro _
          rcases hc with rfl | rfl
          · exact Or.inl rfl
          · exact Or.inr rfl
        · intro _
          trivial
      · simp only [getLatestAnnotationFor2dMediaItem, if_neg hc]
        constructor
        · intro h
          exact absurd h (by simp)
        · rintro (h | h)
          · injection h with h2
            exact absurd (Or.inl h2) hc
          · injection h with h2
            exact absurd (Or.inr h2) hc
  · rintro c rfl h204 h404
    simp only [getLatestAnnotationFor2dMediaItem]
    rw [if_neg (by tauto)]
  · rintro d rfl
    rfl

/-- Witness for C4: a 204 failure maps to the absent result, a 500 failure
is re-raised, and a successful response is deserialized. -/
theorem getLatest_absent_iff_witness :
    getLatestAnnotationFor2dMediaItem ⟨false, false⟩ 10 10
        (RestResult.failure 204) = Except.ok none ∧
    getLatestAnnotationFor2dMediaItem ⟨false, false⟩ 10 10
        (RestResult.failure 500) = Except.error 500 ∧
    getLatestAnnotationFor2dMediaItem ⟨false, false⟩ 10 10
        (RestResult.success ⟨DictFormat.generic, "img-1", [3],
          AnnotationKind.ANNOTATION⟩) =
      Except.ok (some ⟨"img-1", [3], AnnotationKind.ANNOTATION⟩) := by
  refine ⟨?_, ?_, ?_⟩
  · exact (getLatest_absent_iff ⟨false, false⟩ 10 10
      (RestResult.failure 204)).1.mpr (Or.inl rfl)
  · exact (getLatest_absent_iff ⟨false, false⟩ 10 10
      (RestResult.failure 500)).2.1 500 rfl (by decide) (by decide)
  · exact (getLatest_absent_iff ⟨false, false⟩ 10 10
      (RestResult.success ⟨DictFormat.generic, "img-1", [3],
        AnnotationKind.ANNOTATION⟩)).2.2 _ rfl

/-- C5: For every media item, append builds the scene it uploads by
placing the existing remote scene's annotations first and the newly read
annotations after them; if the remote scene is absent (404), append
starts from a fresh empty scene of kind annotation stamped with the
item's media identifier, so the uploaded annotation list is exactly the
newly read annotations. -/
theorem append_scene_order (version : PlatformVersion)
    (media_identifier : String) (width height : Nat)
    (reader_annotations : List Annotation)
    (post_transport : RestResult SceneRestDict) :
    (∀ d payload returned,
      appendAnnotationFor2dMediaItem version media_identifier width height
          reader_annotations (RestResult.success d) post_transport =
        Except.ok (some payload, returned) →
      payload.annotations =
        (annotation_scene_from_rest_response version d width
          height).annotations ++ reader_annotations) ∧
    (∀ response, post_transport = RestResult.success response →
      reader_annotations ≠ [] →
      appendAnnotationFor2dMediaItem version media_identifier width height
          reader_annotations (RestResult.failure 404) post_transport =
        Except.ok
          (some (SceneRestDict.pop_kind
            (if version.is_sc_mvp || version.is_sc_1_1 then
              NormalizedAnnotationRESTConverter.to_normalized_dict
                ⟨media_identifier, reader_annotations,
                  AnnotationKind.ANNOTATION⟩ width height
            else
              AnnotationRESTConverter.to_dict
                ⟨media_identifier, reader_annotations,
                  AnnotationKind.ANNOTATION⟩)),
          AnnotationRESTConverter.from_dict response)) := by
  constructor
  · intro d payload returned heq
    unfold appendAnnotationFor2dMediaItem at heq
    simp only [getLatestAnnotationFor2dMediaItem] at heq
    by_cases hd : ((annotation_scene_from_rest_response version d width
        height).extend
        (read2dMediaAnnotationFromSource media_identifier
          reader_annotations).annotations).has_data
    · rw [if_pos hd] at heq
      cases post_transport with
      | failure c => exact absurd heq (by simp)
      | success response =>
        have hpair := (Except.ok.injEq _ _).mp heq
        have hp : some (SceneRestDict.pop_kind
            (if version.is_sc_mvp || version.is_sc_1_1 then
              NormalizedAnnotationRESTConverter.to_normalized_dict
                ((annotation_scene_from_rest_response version d width
                  height).extend
                  (read2dMediaAnnotationFromSource media_identifier
                    reader_annotations).annotations) width height
            else
              AnnotationRESTConverter.to_dict
                ((annotation_scene_from_rest_response version d width
                  height).extend
                  (read2dMediaAnnotationFromSource media_identifier
                    reader_annotations).annotations))) = some payload := by
          exact congrArg Prod.fst hpair
        have hp2 := Option.some.inj hp
        rw [← hp2]
        by_cases hv : version.is_sc_mvp || version.is_sc_1_1
        · simp [hv, SceneRestDict.pop_kind,
            NormalizedAnnotationRESTConverter.to_normalized_dict,
            AnnotationScene.extend, read2dMediaAnnotationFromSource,
            AnnotationRESTConverter.from_dict]
        · simp [hv, SceneRestDict.pop_kind, AnnotationRESTConverter.to_dict,
            AnnotationScene.extend, read2dMediaAnnotationFromSource,
            AnnotationRESTConverter.from_dict]
    · rw [if_neg hd] at heq
      exact absurd (congrArg Prod.fst ((Except.ok.injEq _ _).mp heq))
        (by simp)
  · intro response hpost hne
    subst hpost
    unfold appendAnnotationFor2dMediaItem
    simp only [getLatestAnnotationFor2dMediaItem, or_true, if_true]
    have hd : ((⟨media_identifier, [], AnnotationKind.ANNOTATION⟩ :
        AnnotationScene).extend
        (read2dMediaAnnotationFromSource media_identifier
          reader_annotations).annotations).has_data = true := by
      simp [AnnotationScene.extend, AnnotationScene.has_data,
        read2dMediaAnnotationFromSource, AnnotationRESTConverter.from_dict,
        hne]
    rw [if_pos hd]
    by_cases hv : version.is_sc_mvp || version.is_sc_1_1
    · simp [hv, AnnotationScene.extend, read2dMediaAnnotationFromSource,
        AnnotationRESTConverter.from_dict,
        NormalizedAnnotationRESTConverter.to_normalized_dict,
        SceneRestDict.pop_kind]
    · simp [hv, AnnotationScene.extend, read2dMediaAnnotationFromSource,
        AnnotationRESTConverter.from_dict, AnnotationRESTConverter.to_dict,
        SceneRestDict.pop_kind]

/-- Witness for C5: remote scene `[1]` plus reader data `[2]` uploads
`[1, 2]` in that order, and a 404 (absent) remote scene with reader data
`[2]` uploads exactly `[2]`. -/
theorem append_scene_order_witness :
    (∀ payload returned,
      appendAnnotationFor2dMediaItem ⟨false, false⟩ "img" 4 4 [2]
          (RestResult.success ⟨DictFormat.generic, "img", [1],
            AnnotationKind.ANNOTATION⟩)
          (RestResult.success ⟨DictFormat.generic, "img", [1, 2],
            AnnotationKind.ANNOTATION⟩) =
        Except.ok (some payload, returned) →
      payload.annotations = [1, 2]) ∧
    appendAnnotationFor2dMediaItem ⟨false, false⟩ "img" 4 4 [2]
        (RestResult.failure 404)
        (RestResult.success ⟨DictFormat.generic, "img", [2],
          AnnotationKind.ANNOTATION⟩) =
      Except.ok (some ⟨DictFormat.generic, "img", [2]⟩,
        ⟨"img", [2], AnnotationKind.ANNOTATION⟩) := by
  constructor
  · intro payload returned heq
    exact (append_scene_order ⟨false, false⟩ "img" 4 4 [2]
      (RestResult.success ⟨DictFormat.generic, "img", [1, 2],
        AnnotationKind.ANNOTATION⟩)).1
      ⟨DictFormat.generic, "img", [1], AnnotationKind.ANNOTATION⟩
      payload returned heq
  · exact (append_scene_order ⟨false, false⟩ "img" 4 4 [2]
      (RestResult.success ⟨DictFormat.generic, "img", [2],
        AnnotationKind.ANNOTATION⟩)).2
      ⟨DictFormat.generic, "img", [2], AnnotationKind.ANNOTATION⟩ rfl
      (by decide)

/-- C8: For every media item and every scene whose `has_data` is false,
the replace upload operation performs no network call (no POST is issued)
and still returns the scene object, stamped with the target media
identifier, to the caller — for every platform version, POST transport
behavior and prepare step. -/
theorem upload_empty_scene_no_post (version : PlatformVersion)
    (media_identifier : String) (width height : Nat)
    (s : AnnotationScene) (reader_annotations : Option (List Annotation))
    (prepare_for_post : AnnotationScene → AnnotationScene)
    (post_transport : RestResult SceneRestDict)
    (h : s.has_data = false) :
    uploadAnnotationFor2dMediaItem version media_identifier width height
        (some s) reader_annotations prepare_for_post post_transport =
      Except.ok (none, s.apply_identifier media_identifier) ∧
    (s.apply_identifier media_identifier).media_identifier =
      media_identifier := by
  constructor
  · unfold uploadAnnotationFor2dMediaItem
    have hs : (s.apply_identifier media_identifier).has_data = false := h
    simp [hs]
  · rfl

/-- Witness for C8: an empty scene attached to another media item is
returned re-stamped, with no POST recorded, even though the POST
transport would have failed with a 500. -/
theorem upload_empty_scene_no_post_witness :
    (⟨"old-img", [], AnnotationKind.ANNOTATION⟩ :
        AnnotationScene).has_data = false ∧
    uploadAnnotationFor2dMediaItem ⟨false, false⟩ "new-img" 8 8
        (some ⟨"old-img", [], AnnotationKind.ANNOTATION⟩) none id
        (RestResult.failure 500) =
      Except.ok (none, ⟨"new-img", [], AnnotationKind.ANNOTATION⟩) := by
  refine ⟨by decide, ?_⟩
  have h := upload_empty_scene_no_post ⟨false, false⟩ "new-img" 8 8
    ⟨"old-img", [], AnnotationKind.ANNOTATION⟩ none id
    (RestResult.failure 500) (by decide)
  exact h.1

/-- C6 counterexample: the claim's image example is wrong on the code.  An
Image named `cat.png` with id `"abc"` yields `cat.png_abc.json`, not
`cat_abc.json`: `os.path.basename` does not strip the file extension. -/
theorem deriveAnnotationFilename_image_example_fails :
    deriveAnnotationFilename (MediaItem2d.image "cat.png" "abc") true ≠
      "cat_abc.json" ∧
    deriveAnnotationFilename (MediaItem2d.image "cat.png" "abc") true =
      "cat.png_abc.json" := by
  constructor
  · decide
  · rfl

/-- C6 (amended): with `append_media_uid=true` an Image gets
`{baseMediaName}_{mediaId}.json` where the base media name keeps its file
extension (an Image named `cat.png` with id `"abc"` yields
`cat.png_abc.json`), and a VideoFrame gets
`{baseVideoName}_{videoId}_frame_{frameIndex}.json` with the base video
name taken from the parent video's name when known and otherwise from
stripping the trailing `_frame_<n>` suffix of the item's own name (a
VideoFrame named `clip_frame_7` with video_id `3`, frame_index 7 and no
parent video name yields `clip_3_frame_7.json`). -/
theorem deriveAnnotationFilename_spec (name id vn video_id : String)
    (frame_index : Nat) :
    deriveAnnotationFilename (MediaItem2d.image name id) true =
      osPathBasename name ++ "_" ++ id ++ ".json" ∧
    deriveAnnotationFilename
        (MediaItem2d.videoFrame name (some vn) video_id frame_index)
        true =
      osPathBasename vn ++ "_" ++ video_id ++ "_frame_" ++
        toString frame_index ++ ".json" ∧
    deriveAnnotationFilename
        (MediaItem2d.videoFrame name none video_id frame_index) true =
      textBeforeFirst "_frame_" (osPathBasename name) ++ "_" ++
        video_id ++ "_frame_" ++ toString frame_index ++ ".json" ∧
    deriveAnnotationFilename
        (MediaItem2d.videoFrame "clip_frame_7" none "3" 7) true =
      "clip_3_frame_7.json" ∧
    deriveAnnotationFilename (MediaItem2d.image "cat.png" "abc") true =
      "cat.png_abc.json" := by
  refine ⟨rfl, rfl, rfl, ?_, rfl⟩
  decide

theorem downloadLoop_spec (version : PlatformVersion)
    (folder : String) (uid : Bool) :
    ∀ (items : List DownloadItem) (d0 s0 : Nat) (w0 : List WrittenFile),
    (∀ item ∈ items, itemFetchFails version item = false) →
    ∃ written,
      downloadAnnotationsLoop version folder uid items d0 s0 w0 =
        Except.ok
          (d0 + (items.countP (fun item => !itemSkipped version item)),
           s0 + (items.countP (fun item => itemSkipped version item)),
           w0 ++ written) ∧
      written.length =
        items.countP (fun item => !itemSkipped version item) := by
  intro items
  induction items with
  | nil =>
    intro d0 s0 w0 _
    exact ⟨[], by simp [downloadAnnotationsLoop], by simp⟩
  | cons item rest ih =>
    intro d0 s0 w0 hok
    have hok_rest : ∀ it ∈ rest, itemFetchFails version it = false :=
      fun it hit => hok it (List.mem_cons_of_mem item hit)
    have hok_item : itemFetchFails version item = false :=
      hok item (List.mem_cons_self item rest)
    rcases hfetch : getLatestAnnotationFor2dMediaItem version item.width
        item.height item.transport with c | latest
    · exfalso
      unfold itemFetchFails at hok_item
      rw [hfetch] at hok_item
      exact absurd hok_item (by simp)
    · cases latest with
      | none =>
        have hsk : itemSkipped version item = true := by
          unfold itemSkipped
          rw [hfetch]
        have hstep : downloadAnnotationsLoop version folder uid
            (item :: rest) d0 s0 w0 =
            downloadAnnotationsLoop version folder uid rest d0 (s0 + 1)
              w0 := by
          simp [downloadAnnotationsLoop, hfetch]
        obtain ⟨written, hrun, hlen⟩ := ih d0 (s0 + 1) w0 hok_rest
        refine ⟨written, ?_, ?_⟩
        · rw [hstep, hrun]
          simp [List.countP_cons, hsk] <;> omega
        · rw [hlen]
          simp [List.countP_cons, hsk]
      | some annotation_scene =>
        by_cases hkind : annotation_scene.kind = AnnotationKind.ANNOTATION
        · have hsk : itemSkipped version item = false := by
            unfold itemSkipped
            rw [hfetch]
            simp [hkind]
          have hstep : downloadAnnotationsLoop version folder uid
              (item :: rest) d0 s0 w0 =
              downloadAnnotationsLoop version folder uid rest (d0 + 1) s0
                (w0 ++ [⟨osPathJoin folder
                    (deriveAnnotationFilename item.media_item uid),
                  AnnotationRESTConverter.to_dict annotation_scene,
                  4⟩]) := by
            simp [downloadAnnotationsLoop, hfetch, hkind]
          obtain ⟨written, hrun, hlen⟩ := ih (d0 + 1) s0 (w0 ++
            [⟨osPathJoin folder
                (deriveAnnotationFilename item.media_item uid),
              AnnotationRESTConverter.to_dict annotation_scene, 4⟩])
            hok_rest
          refine ⟨⟨osPathJoin folder
              (deriveAnnotationFilename item.media_item uid),
            AnnotationRESTConverter.to_dict annotation_scene, 4⟩ ::
            written, ?_, ?_⟩
          · rw [hstep, hrun]
            simp [List.countP_cons, hsk] <;> omega
          · simp [List.countP_cons, hsk, hlen]
        · have hsk : itemSkipped version item = true := by
            unfold itemSkipped
            rw [hfetch]
            simp [hkind]
          have hstep : downloadAnnotationsLoop version folder uid
              (item :: rest) d0 s0 w0 =
              downloadAnnotationsLoop version folder uid rest d0 (s0 + 1)
                w0 := by
            simp [downloadAnnotationsLoop, hfetch, hkind]
          obtain ⟨written, hrun, hlen⟩ := ih d0 (s0 + 1) w0 hok_rest
          refine ⟨written, ?_, ?_⟩
          · rw [hstep, hrun]
            simp [List.countP_cons, hsk] <;> omega
          · rw [hlen]
            simp [List.countP_cons, hsk]

theorem countP_skipped_split (version : PlatformVersion)
    (l : List DownloadItem) :
    l.countP (fun item => !itemSkipped version item) +
      l.countP (fun item => itemSkipped version item) = l.length := by
  induction l with
  | nil => rfl
  | cons a l ih =>
    by_cases h : itemSkipped version a <;>
      simp [List.countP_cons, h] <;> omega

/-- C7: For every media list whose per-item fetches each either succeed or
map to absent (no hard transport error), bulk download processes every
item exactly once, counting it as skipped (writing no file) precisely
when its fetch is absent or the fetched scene's kind is not annotation,
and as downloaded otherwise, so downloaded + skipped equals the length of
the media list; the returned elapsed time is nonnegative (the end
wall-clock reading being at least the start reading). -/
theorem bulk_download_counts (version : PlatformVersion)
    (path_to_folder : String) (append_media_uid : Bool)
    (media_list : List DownloadItem) (t_start t_end : Int)
    (hok : ∀ item ∈ media_list, itemFetchFails version item = false)
    (ht : t_start ≤ t_end) :
    ∃ download_count skip_count written,
      downloadAnnotationsFor2dMediaList version path_to_folder
          append_media_uid media_list t_start t_end =
        Except.ok (download_count, skip_count, written,
          t_end - t_start) ∧
      download_count + skip_count = media_list.length ∧
      skip_count =
        media_list.countP (fun item => itemSkipped version item) ∧
      download_count =
        media_list.countP (fun item => !itemSkipped version item) ∧
      written.length = download_count ∧
      0 ≤ t_end - t_start := by
  obtain ⟨written, hrun, hlen⟩ := downloadLoop_spec version
    (osPathJoin path_to_folder "annotations") append_media_uid media_list
    0 0 [] hok
  refine ⟨media_list.countP (fun item => !itemSkipped version item),
    media_list.countP (fun item => itemSkipped version item), written,
    ?_, ?_, rfl, rfl, hlen, ?_⟩
  · unfold downloadAnnotationsFor2dMediaList
    rw [hrun]
    simp
  · exact countP_skipped_split version media_list
  · omega

/-- Witness for C7: three items — one fetch succeeding with kind
annotation, one absent (404), one succeeding with kind prediction — give
one download and two skips, with elapsed time 12 - 10. -/
theorem bulk_download_counts_witness :
    ∃ download_count skip_count written,
      downloadAnnotationsFor2dMediaList ⟨false, false⟩ "out" false
          [⟨MediaItem2d.image "a" "1", 5, 5, RestResult.success
              ⟨DictFormat.generic, "m", [7], AnnotationKind.ANNOTATION⟩⟩,
           ⟨MediaItem2d.image "b" "2", 5, 5, RestResult.failure 404⟩,
           ⟨MediaItem2d.image "c" "3", 5, 5, RestResult.success
              ⟨DictFormat.generic, "m", [8],
                AnnotationKind.PREDICTION⟩⟩] 10 12 =
        Except.ok (download_count, skip_count, written, 12 - 10) ∧
      download_count + skip_count = 3 ∧ download_count = 1 ∧
      skip_count = 2 := by
  obtain ⟨d, s, w, h1, h2, h3, h4, h5, h6⟩ := bulk_download_counts
    ⟨false, false⟩ "out" false
    [⟨MediaItem2d.image "a" "1", 5, 5, RestResult.success
        ⟨DictFormat.generic, "m", [7], AnnotationKind.ANNOTATION⟩⟩,
     ⟨MediaItem2d.image "b" "2", 5, 5, RestResult.failure 404⟩,
     ⟨MediaItem2d.image "c" "3", 5, 5, RestResult.success
        ⟨DictFormat.generic, "m", [8], AnnotationKind.PREDICTION⟩⟩]
    10 12 (by decide) (by decide)
  refine ⟨d, s, w, h1, h2, ?_, ?_⟩
  · rw [h4]; decide
  · rw [h3]; decide

theorem downloadLoop_written (version : PlatformVersion)
    (folder : String) (uid : Bool) :
    ∀ (items : List DownloadItem) (d0 s0 : Nat)
      (w0 : List WrittenFile) (d s : Nat) (w : List WrittenFile),
    downloadAnnotationsLoop version folder uid items d0 s0 w0 =
      Except.ok (d, s, w) →
    ∀ f ∈ w, f ∈ w0 ∨
      (f.data.format = DictFormat.generic ∧ f.indent = 4 ∧
        ∃ item ∈ items, f.path =
          osPathJoin folder
            (deriveAnnotationFilename item.media_item uid)) := by
  intro items
  induction items with
  | nil =>
    intro d0 s0 w0 d s w hrun f hf
    have h3 : d0 = d ∧ s0 = s ∧ w0 = w := by
      simpa [downloadAnnotationsLoop] using hrun
    rw [h3.2.2]
    exact Or.inl hf
  | cons item rest ih =>
    intro d0 s0 w0 d s w hrun f hf
    rcases hfetch : getLatestAnnotationFor2dMediaItem version item.width
        item.height item.transport with c | latest
    · rw [show downloadAnnotationsLoop version folder uid (item :: rest)
          d0 s0 w0 = Except.error c from by
        simp [downloadAnnotationsLoop, hfetch]] at hrun
      exact absurd hrun (by simp)
    · cases latest with
      | none =>
        rw [show downloadAnnotationsLoop version folder uid (item :: rest)
              d0 s0 w0 = downloadAnnotationsLoop version folder uid rest
                d0 (s0 + 1) w0 from by
            simp [downloadAnnotationsLoop, hfetch]] at hrun
        rcases ih d0 (s0 + 1) w0 d s w hrun f hf with h | ⟨h1, h2, it,
          hit, h3⟩
        · exact Or.inl h
        · exact Or.inr ⟨h1, h2, it, List.mem_cons_of_mem item hit, h3⟩
      | some annotation_scene =>
        by_cases hkind : annotation_scene.kind = AnnotationKind.ANNOTATION
        · rw [show downloadAnnotationsLoop version folder uid
                (item :: rest) d0 s0 w0 =
              downloadAnnotationsLoop version folder uid rest (d0 + 1) s0
                (w0 ++ [⟨osPathJoin folder
                    (deriveAnnotationFilename item.media_item uid),
                  AnnotationRESTConverter.to_dict annotation_scene,
                  4⟩]) from by
            simp [downloadAnnotationsLoop, hfetch, hkind]] at hrun
          rcases ih (d0 + 1) s0 _ d s w hrun f hf with h | ⟨h1, h2, it,
            hit, h3⟩
          · rcases List.mem_append.mp h with h | h
            · exact Or.inl h
            · have hfe := List.mem_singleton.mp h
              subst hfe
              exact Or.inr ⟨rfl, rfl, item, List.mem_cons_self item rest,
                rfl⟩
          · exact Or.inr ⟨h1, h2, it, List.mem_cons_of_mem item hit, h3⟩
        · rw [show downloadAnnotationsLoop version folder uid
                (item :: rest) d0 s0 w0 =
              downloadAnnotationsLoop version folder uid rest d0 (s0 + 1)
                w0 from by
            simp [downloadAnnotationsLoop, hfetch, hkind]] at hrun
          rcases ih d0 (s0 + 1) w0 d s w hrun f hf with h | ⟨h1, h2, it,
            hit, h3⟩
          · exact Or.inl h
          · exact Or.inr ⟨h1, h2, it, List.mem_cons_of_mem item hit, h3⟩

/-- C9: Every JSON file written by the bulk download, for every platform
version, lives under `{path_to_folder}/annotations/` and contains the
generic (non-normalized) transport dictionary of the scene, written with
`json.dump(..., indent=4)`; the on-disk representation is never the
legacy normalized format, regardless of the session's platform-version
flags. -/
theorem bulk_download_writes_generic (version : PlatformVersion)
    (path_to_folder : String) (append_media_uid : Bool)
    (media_list : List DownloadItem) (t_start t_end : Int)
    (download_count skip_count : Nat) (written : List WrittenFile)
    (t_elapsed : Int)
    (h : downloadAnnotationsFor2dMediaList version path_to_folder
        append_media_uid media_list t_start t_end =
      Except.ok (download_count, skip_count, written, t_elapsed)) :
    ∀ f ∈ written, f.data.format = DictFormat.generic ∧ f.indent = 4 ∧
      ∃ item ∈ media_list, f.path =
        osPathJoin (osPathJoin path_to_folder "annotations")
          (deriveAnnotationFilename item.media_item append_media_uid) := by
  intro f hf
  unfold downloadAnnotationsFor2dMediaList at h
  rcases hloop : downloadAnnotationsLoop version
      (osPathJoin path_to_folder "annotations") append_media_uid
      media_list 0 0 [] with c | res
  · rw [hloop] at h
    exact absurd h (by simp)
  · obtain ⟨d', s', w'⟩ := res
    rw [hloop] at h
    have hw : w' = written := by
      have hh := (Except.ok.injEq _ _).mp h
      exact congrArg (fun q => q.2.2.1) hh
    rcases downloadLoop_written version
        (osPathJoin path_to_folder "annotations") append_media_uid
        media_list 0 0 [] d' s' w' hloop f (by rw [hw]; exact hf) with
      hmem | hprops
    · exact absurd hmem (by simp)
    · exact hprops

/-- Witness for C9: the single file written by a concrete bulk download on
a legacy (SC MVP) session still carries the generic dictionary, indent 4,
under `out/annotations/`. -/
theorem bulk_download_writes_generic_witness :
    (⟨"out/annotations/a.json",
        ⟨DictFormat.generic, "m", [7], AnnotationKind.ANNOTATION⟩, 4⟩ :
      WrittenFile).data.format = DictFormat.generic ∧
    (⟨"out/annotations/a.json",
        ⟨DictFormat.generic, "m", [7], AnnotationKind.ANNOTATION⟩, 4⟩ :
      WrittenFile).indent = 4 ∧
    ∃ item ∈ [(⟨MediaItem2d.image "a" "1", 5, 5, RestResult.success
        ⟨DictFormat.generic, "m", [7], AnnotationKind.ANNOTATION⟩⟩ :
      DownloadItem)],
      (⟨"out/annotations/a.json",
          ⟨DictFormat.generic, "m", [7], AnnotationKind.ANNOTATION⟩, 4⟩ :
        WrittenFile).path =
        osPathJoin (osPathJoin "out" "annotations")
          (deriveAnnotationFilename item.media_item false) := by
  exact bulk_download_writes_generic ⟨true, false⟩ "out" false
    [⟨MediaItem2d.image "a" "1", 5, 5, RestResult.success
        ⟨DictFormat.generic, "m", [7], AnnotationKind.ANNOTATION⟩⟩]
    10 12 1 0
    [⟨"out/annotations/a.json",
        ⟨DictFormat.generic, "m", [7], AnnotationKind.ANNOTATION⟩, 4⟩]
    2 (by decide) _ (by simp)

/-- C10: For every input to `ImageManager.upload_image` that is not a
string or `os.PathLike` path, the call fails before returning an Image —
a numpy-array input raises `NameError` on the undefined `cv2`, and any
other input type reaches the return statement with `image_dict` unbound,
raising `UnboundLocalError` — and no upload call is performed. -/
theorem upload_image_non_path_fails (upload_result : String → Nat)
    (image : UploadImageInput)
    (h : ∀ p, image ≠ UploadImageInput.path p) :
    (upload_image upload_result image).1 = [] ∧
    (∃ e, (upload_image upload_result image).2 = Except.error e) ∧
    (∀ data, image = UploadImageInput.ndarray data →
      (upload_image upload_result image).2 =
        Except.error (PyRuntimeError.nameError "cv2")) ∧
    (image = UploadImageInput.otherObject →
      (upload_image upload_result image).2 =
        Except.error (PyRuntimeError.unboundLocalError "image_dict")) := by
  cases image with
  | path p => exact absurd rfl (h p)
  | ndarray data =>
    refine ⟨rfl, ⟨PyRuntimeError.nameError "cv2", rfl⟩, ?_, ?_⟩
    · intro _ _
      rfl
    · intro hc
      cases hc
  | otherObject =>
    refine ⟨rfl, ⟨PyRuntimeError.unboundLocalError "image_dict", rfl⟩,
      ?_, ?_⟩
    · intro _ hc
      cases hc
    · intro _
      rfl

/-- Witness for C10: a numpy-array input performs no upload and raises
`NameError` on `cv2`. -/
theorem upload_image_non_path_fails_witness :
    (upload_image (fun _ => 0) (UploadImageInput.ndarray [1, 2])).1 =
      [] ∧
    (upload_image (fun _ => 0) (UploadImageInput.ndarray [1, 2])).2 =
      Except.error (PyRuntimeError.nameError "cv2") := by
  have h := upload_image_non_path_fails (fun _ => 0)
    (UploadImageInput.ndarray [1, 2]) (by intro p hc; cases hc)
  exact ⟨h.1, h.2.2.1 [1, 2] rfl⟩
